import Mathlib

/-! # OpenSSL crypto hooks of the client-encryption addon

A shallow embedding of `src/addon/openssl-crypto.cc` and the properties of its entry points.

* The OpenSSL library is an external collaborator: it is a record of answers (`OpenSSL`),
  one field per API function the addon calls, each a function of the arguments the addon
  passes. The properties hold for every such record.
* A call of an entry point runs in `Run`: explicit state passing over the caller's
  out-parameters (`bytes_written`, `status`) and the sequence of library calls made so far
  (`trace`), with C++ exceptions as `Except`.
* The macros `S` / `S_Unchecked` look symbols up in the process (`Process`); `S` throws when
  a symbol is missing. The properties of the primitives are stated for a process in which
  the symbols resolve (`Process.bound`).
* C integers are `Nat` / `Int` with explicit conversions (`toUInt32`, `toInt`, ...).
-/

namespace OpenSSLCrypto

/-! ## Data model -/

/-- A native pointer; `0` is `nullptr`. -/
abbrev Ptr := Nat

/-- The OpenSSL functions the addon refers to through `S(...)` / `S_Unchecked(...)`. -/
inductive Sym
  | OpenSSL_version_num
  | EVP_CIPHER_CTX_new | EVP_CIPHER_CTX_free
  | EVP_CIPHER_get_iv_length | EVP_CIPHER_get_key_length
  | EVP_CIPHER_CTX_set_padding
  | EVP_EncryptInit_ex | EVP_EncryptUpdate | EVP_EncryptFinal_ex
  | EVP_DecryptInit_ex | EVP_DecryptUpdate | EVP_DecryptFinal_ex
  | ERR_error_string | ERR_get_error
  | EVP_aes_256_cbc | EVP_aes_256_ecb | EVP_aes_256_ctr
  | HMAC | EVP_sha512 | EVP_sha256
  | RAND_bytes
  | EVP_MD_CTX_new | EVP_MD_CTX_free
  | EVP_DigestInit_ex | EVP_DigestUpdate | EVP_DigestFinal_ex
  | d2i_PrivateKey | EVP_PKEY_free
  | EVP_DigestSignInit | EVP_DigestSignUpdate | EVP_DigestSignFinal
  deriving DecidableEq, Repr

/-- What a C++ `throw` of this file carries. -/
inductive Exn
  /-- `ASSERT(x)` failed: `std::runtime_error("Assertion failed: " #x ...)`; the field is `#x`. -/
  | assertion (expr : String)
  /-- `S(x)` found no symbol: `"Unable to look up OpenSSL symbol: " #x`. -/
  | lookup (s : Sym)
  /-- `OwnProcessDylib()` got no handle: `"Could not open process handle"`. -/
  | process_handle
  /-- An exception left a destructor (`~CleanupImpl` is implicitly `noexcept`): `std::terminate`. -/
  | terminate
  deriving DecidableEq, Repr

/-- The kinds of `mongocrypt_status_t`. -/
inductive StatusKind
  | MONGOCRYPT_STATUS_OK
  | MONGOCRYPT_STATUS_ERROR_CLIENT
  | MONGOCRYPT_STATUS_ERROR_KMS
  deriving DecidableEq, Repr

/-- Modelled from the spec: `mongocrypt_status_t` is declared in `mongocrypt.h`, which is
not among the sources; the spec describes it as a record with kind, numeric code and
message (with the message length the caller passes). -/
structure Status where
  kind : StatusKind
  code : Nat
  message : String
  message_len : Nat
  deriving DecidableEq, Repr

/-- A `mongocrypt_binary_t`: a caller-owned (pointer, length) pair; `len` is a `uint32_t`. -/
structure Binary where
  data : Ptr
  len : Nat
  deriving DecidableEq, Repr

/-- One call of a library function: the function, the native object it returned or was
applied to (`0` when there is none), and the value it returned (`0` for `void`). -/
structure Event where
  fn : Sym
  obj : Ptr
  ret : Int
  deriving DecidableEq, Repr

/-- The answers of the OpenSSL library, one field per API function, as functions of the
arguments the addon passes. An `int*` out-parameter is the second component of the answer. -/
structure OpenSSL where
  OpenSSL_version_num : Nat
  EVP_CIPHER_CTX_new : Ptr
  EVP_aes_256_cbc : Ptr
  EVP_aes_256_ecb : Ptr
  EVP_aes_256_ctr : Ptr
  EVP_CIPHER_get_iv_length : (cipher : Ptr) → Int
  EVP_CIPHER_get_key_length : (cipher : Ptr) → Int
  EVP_EncryptInit_ex : (ctx cipher key iv : Ptr) → Int
  EVP_EncryptUpdate : (ctx out inp : Ptr) → (inl : Int) → Int × Int
  EVP_EncryptFinal_ex : (ctx out : Ptr) → Int × Int
  EVP_DecryptInit_ex : (ctx cipher key iv : Ptr) → Int
  EVP_DecryptUpdate : (ctx out inp : Ptr) → (inl : Int) → Int × Int
  EVP_DecryptFinal_ex : (ctx out : Ptr) → Int × Int
  ERR_get_error : Nat
  ERR_error_string : (e : Nat) → String
  EVP_sha256 : Ptr
  EVP_sha512 : Ptr
  HMAC : (md key : Ptr) → (key_len : Int) → (data : Ptr) → (data_len : Nat) → (out : Ptr) → Ptr
  RAND_bytes : (buf : Ptr) → (num : Int) → Int
  EVP_MD_CTX_new : Ptr
  EVP_DigestInit_ex : (ctx md : Ptr) → Int
  EVP_DigestUpdate : (ctx data : Ptr) → (count : Nat) → Int
  EVP_DigestFinal_ex : (ctx md : Ptr) → Int
  d2i_PrivateKey : (pp : Ptr) → (length : Int) → Ptr
  EVP_DigestSignInit : (ctx md pkey : Ptr) → Int
  EVP_DigestSignUpdate : (ctx data : Ptr) → (dsize : Nat) → Int
  EVP_DigestSignFinal : (ctx sig : Ptr) → Int

/-- The process the addon is loaded into. -/
structure Process where
  /-- Whether the build defines `MONGO_CLIENT_ENCRYPTION_STATIC_OPENSSL`. -/
  static_openssl : Bool
  /-- Whether `dlopen(nullptr, RTLD_NOW)` / `GetModuleHandle(nullptr)` gives a handle. -/
  handle : Bool
  /-- Whether `dlsym` / `GetProcAddress` finds the symbol. -/
  dlsym : Sym → Bool
  /-- The value of `LONG_MAX` on the platform. -/
  LONG_MAX : Nat
  /-- The library behind the symbols. -/
  ssl : OpenSSL

/-- The caller-visible state of one call and the library calls made so far. -/
structure Mem where
  bytes_written : Nat
  status : Status
  trace : List Event
  deriving DecidableEq, Repr

/-! ## C integer conversions -/

def INT_MAX : Nat := 2147483647

def UINT32_MAX : Nat := 4294967295

/-- The cast `(uint32_t)x` of an `int`. -/
def toUInt32 (x : Int) : Nat := (x % 4294967296).toNat

/-- The cast `(uint64_t)x` of an `int`. -/
def toUInt64 (x : Int) : Nat := (x % 18446744073709551616).toNat

/-- The cast `(int)x` of a `uint32_t`. -/
def toInt (n : Nat) : Int :=
  if n % 4294967296 < 2147483648 then ((n % 4294967296 : Nat) : Int)
  else ((n % 4294967296 : Nat) : Int) - 4294967296

/-- The cast `(long)x` of a `uint32_t` that is at most `LONG_MAX`. -/
def toLong (n : Nat) : Int := (n : Int)

/-- The conversion of an `int` to `bool`. -/
def toBool (x : Int) : Bool := x != 0

/-- The promotion of a `bool` to `int`. -/
def ofBool (b : Bool) : Int := if b then 1 else 0

/-! ## The execution monad -/

/-- A computation over the caller-visible state that returns or throws. -/
def Run (α : Type) : Type := Mem → Except Exn α × Mem

def Run.pure {α : Type} (a : α) : Run α := fun m => (Except.ok a, m)

def Run.bind {α β : Type} (x : Run α) (f : α → Run β) : Run β := fun m =>
  match x m with
  | (Except.ok a, m1) => f a m1
  | (Except.error e, m1) => (Except.error e, m1)

instance : Monad Run where
  pure := Run.pure
  bind := Run.bind

/-- Records a library call. -/
def Run.log (e : Event) : Run Unit := fun m => (Except.ok (), { m with trace := m.trace ++ [e] })

/-! ## Symbol resolution -/

/-- The function `opensslsym`: the address of `name` in the process, `false` for null. The
function-local static `dl` throws from its constructor when there is no handle. -/
def opensslsym (p : Process) (name : Sym) : Except Exn Bool :=
  if !p.handle then Except.error Exn.process_handle
  else Except.ok (p.dlsym name)

/-- The macro `S_Unchecked(x)`: `x` itself in a static build, else the looked-up address. -/
def S_Unchecked (p : Process) (x : Sym) : Except Exn Bool :=
  if p.static_openssl then Except.ok true
  else opensslsym p x

/-- The macro `S(x)`: as `S_Unchecked`, but throws when the symbol is null. (The address is
kept in a function-local static, so a call sees one answer per symbol.) -/
def S (p : Process) (x : Sym) : Run Unit := fun m =>
  match S_Unchecked p x with
  | Except.error e => (Except.error e, m)
  | Except.ok sym => if !sym then (Except.error (Exn.lookup x), m) else (Except.ok (), m)

/-- The macro `ASSERT(x)`; `expr` is the text of `x`. -/
def ASSERT (x : Bool) (expr : String) : Run Unit := fun m =>
  if !x then (Except.error (Exn.assertion expr), m) else (Except.ok (), m)

/-- A library call `S(fn)(...)`: the symbol is looked up, then the call is recorded. -/
def invoke (p : Process) (fn : Sym) (obj : Ptr) (ret : Int) : Run Unit := do
  S p fn
  Run.log { fn := fn, obj := obj, ret := ret }

/-- Reads `*bytes_written`. -/
def get_bytes_written : Run Nat := fun m => (Except.ok m.bytes_written, m)

/-- Writes `*bytes_written`. -/
def set_bytes_written (n : Nat) : Run Unit := fun m => (Except.ok (), { m with bytes_written := n })

/-- Modelled from the spec: `mongocrypt_status_set` belongs to libmongocrypt and is not among
the sources; the spec has a primitive populate the Status record with kind, code, message
and message length. -/
def mongocrypt_status_set (kind : StatusKind) (code : Nat) (message : String)
    (message_len : Nat) : Run Unit := fun m =>
  (Except.ok (), { m with status :=
    { kind := kind, code := code, message := message, message_len := message_len } })

/-- The error block every failing step shares: the message is `step` followed by
`S(ERR_error_string)(S(ERR_get_error)(), nullptr)`, set with kind client-error and code 1. -/
def report_error (p : Process) (step : String) : Run Unit := do
  S p Sym.ERR_error_string
  invoke p Sym.ERR_get_error 0 (p.ssl.ERR_get_error : Int)
  Run.log { fn := Sym.ERR_error_string, obj := 0, ret := 0 }
  let errorMessage := step ++ p.ssl.ERR_error_string p.ssl.ERR_get_error
  mongocrypt_status_set StatusKind.MONGOCRYPT_STATUS_ERROR_CLIENT 1 errorMessage
    (errorMessage.utf8ByteSize + 1)

/-- Reading through a `mongocrypt_binary_t*`; every use below follows an `ASSERT` that the
pointer is not null. -/
def deref (b : Option Binary) : Binary := b.getD { data := 0, len := 0 }

/-- The `data` pointer handed to the library for an optional buffer (`nullptr` when absent). -/
def data_or_null (b : Option Binary) : Ptr :=
  match b with
  | none => 0
  | some x => x.data

/-! ## Scoped cleanup -/

/-- The struct `CleanupImpl<T>`: a callable and the flag that says whether the destructor
still has to run it. -/
structure CleanupImpl where
  fn : Run Unit
  active : Bool

/-- The constructor `CleanupImpl(T&& fn)`. -/
def CleanupImpl.ctor (fn : Run Unit) : CleanupImpl := { fn := fn, active := true }

/-- The move constructor: the new object, and `other` after the move. -/
def CleanupImpl.move_ctor (other : CleanupImpl) : CleanupImpl × CleanupImpl :=
  ({ fn := other.fn, active := true }, { other with active := false })

/-- The destructor `~CleanupImpl()`. -/
def CleanupImpl.dtor (c : CleanupImpl) : Run Unit :=
  if c.active then c.fn else pure ()

/-- The function `Cleanup(fn)`: returns the `CleanupImpl` constructed from `fn`. -/
def Cleanup (fn : Run Unit) : CleanupImpl := CleanupImpl.ctor fn

/-- The lifetime of a local `auto cleanup = Cleanup(...)`: `body` is the rest of the
enclosing block; the destructor runs when the block is left, by return or by the unwinding
of an exception that a caller catches. An exception that leaves the destructor ends in
`std::terminate`, after which nothing runs any more. -/
def CleanupImpl.scope {α : Type} (c : CleanupImpl) (body : Run α) : Run α := fun m =>
  match body m with
  | (Except.error Exn.terminate, m1) => (Except.error Exn.terminate, m1)
  | (r, m1) =>
    match c.dtor m1 with
    | (Except.ok _, m2) => (r, m2)
    | (Except.error _, m2) => (Except.error Exn.terminate, m2)

/-! ## Cipher primitives -/

/-- The function `_encrypt_with_cipher`; `inp` is the parameter `in`. -/
def _encrypt_with_cipher (p : Process) (cipher : Ptr) (key iv inp out : Option Binary) :
    Run Bool := do
  let ctx := p.ssl.EVP_CIPHER_CTX_new
  invoke p Sym.EVP_CIPHER_CTX_new ctx ctx
  (Cleanup (invoke p Sym.EVP_CIPHER_CTX_free ctx 0)).scope do
    ASSERT key.isSome "key"
    ASSERT inp.isSome "in"
    ASSERT out.isSome "out"
    ASSERT (ctx != 0) "ctx"
    ASSERT (cipher != 0) "cipher"
    let iv_ok ← match iv with
      | none => pure true
      | some b => do
        invoke p Sym.EVP_CIPHER_get_iv_length cipher (p.ssl.EVP_CIPHER_get_iv_length cipher)
        pure (toUInt32 (p.ssl.EVP_CIPHER_get_iv_length cipher) == b.len)
    ASSERT iv_ok "nullptr == iv || (uint32_t)S(EVP_CIPHER_get_iv_length)(cipher) == iv->len"
    invoke p Sym.EVP_CIPHER_get_key_length cipher (p.ssl.EVP_CIPHER_get_key_length cipher)
    ASSERT (toUInt32 (p.ssl.EVP_CIPHER_get_key_length cipher) == (deref key).len)
      "(uint32_t)S(EVP_CIPHER_get_key_length)(cipher) == key->len"
    ASSERT (decide ((deref inp).len ≤ INT_MAX)) "in->len <= INT_MAX"
    let init := p.ssl.EVP_EncryptInit_ex ctx cipher (deref key).data (data_or_null iv)
    invoke p Sym.EVP_EncryptInit_ex ctx init
    if init == 0 then do
      report_error p "error in EVP_EncryptInit_ex: "
      pure false
    else do
      invoke p Sym.EVP_CIPHER_CTX_set_padding ctx 0
      set_bytes_written 0
      let update := p.ssl.EVP_EncryptUpdate ctx (deref out).data (deref inp).data
        (toInt (deref inp).len)
      invoke p Sym.EVP_EncryptUpdate ctx update.1
      if update.1 == 0 then do
        report_error p "error in EVP_EncryptUpdate: "
        pure false
      else do
        let intermediate_bytes_written := update.2
        ASSERT (decide (intermediate_bytes_written ≥ 0) &&
            decide (toUInt64 intermediate_bytes_written ≤ UINT32_MAX))
          "intermediate_bytes_written >= 0 && (uint64_t)intermediate_bytes_written <= UINT32_MAX"
        set_bytes_written (toUInt32 intermediate_bytes_written)
        let final := p.ssl.EVP_EncryptFinal_ex ctx (deref out).data
        invoke p Sym.EVP_EncryptFinal_ex ctx final.1
        if final.1 == 0 then do
          report_error p "error in EVP_EncryptFinal_ex: "
          pure false
        else do
          let intermediate_bytes_written := final.2
          let written ← get_bytes_written
          ASSERT (decide (UINT32_MAX - written ≥ toUInt32 intermediate_bytes_written))
            "UINT32_MAX - *bytes_written >= (uint32_t)intermediate_bytes_written"
          set_bytes_written ((written + toUInt32 intermediate_bytes_written) % 4294967296)
          pure true

/-- The function `_decrypt_with_cipher`; `inp` is the parameter `in`. -/
def _decrypt_with_cipher (p : Process) (cipher : Ptr) (key iv inp out : Option Binary) :
    Run Bool := do
  let ctx := p.ssl.EVP_CIPHER_CTX_new
  invoke p Sym.EVP_CIPHER_CTX_new ctx ctx
  (Cleanup (invoke p Sym.EVP_CIPHER_CTX_free ctx 0)).scope do
    ASSERT (ctx != 0) "ctx"
    ASSERT (cipher != 0) "cipher"
    ASSERT iv.isSome "iv"
    ASSERT key.isSome "key"
    ASSERT inp.isSome "in"
    ASSERT out.isSome "out"
    invoke p Sym.EVP_CIPHER_get_iv_length cipher (p.ssl.EVP_CIPHER_get_iv_length cipher)
    ASSERT (toUInt32 (p.ssl.EVP_CIPHER_get_iv_length cipher) == (deref iv).len)
      "(uint32_t)S(EVP_CIPHER_get_iv_length)(cipher) == iv->len"
    invoke p Sym.EVP_CIPHER_get_key_length cipher (p.ssl.EVP_CIPHER_get_key_length cipher)
    ASSERT (toUInt32 (p.ssl.EVP_CIPHER_get_key_length cipher) == (deref key).len)
      "(uint32_t)S(EVP_CIPHER_get_key_length)(cipher) == key->len"
    ASSERT (decide ((deref inp).len ≤ INT_MAX)) "in->len <= INT_MAX"
    let init := p.ssl.EVP_DecryptInit_ex ctx cipher (deref key).data (deref iv).data
    invoke p Sym.EVP_DecryptInit_ex ctx init
    if init == 0 then do
      report_error p "error in EVP_DecryptInit_ex: "
      pure false
    else do
      invoke p Sym.EVP_CIPHER_CTX_set_padding ctx 0
      set_bytes_written 0
      let update := p.ssl.EVP_DecryptUpdate ctx (deref out).data (deref inp).data
        (toInt (deref inp).len)
      invoke p Sym.EVP_DecryptUpdate ctx update.1
      if update.1 == 0 then do
        report_error p "error in EVP_DecryptUpdate: "
        pure false
      else do
        let intermediate_bytes_written := update.2
        ASSERT (decide (intermediate_bytes_written ≥ 0) &&
            decide (toUInt64 intermediate_bytes_written ≤ UINT32_MAX))
          "intermediate_bytes_written >= 0 && (uint64_t)intermediate_bytes_written <= UINT32_MAX"
        set_bytes_written (toUInt32 intermediate_bytes_written)
        let final := p.ssl.EVP_DecryptFinal_ex ctx (deref out).data
        invoke p Sym.EVP_DecryptFinal_ex ctx final.1
        if final.1 == 0 then do
          report_error p "error in EVP_DecryptFinal_ex: "
          pure false
        else do
          let intermediate_bytes_written := final.2
          let written ← get_bytes_written
          ASSERT (decide (UINT32_MAX - written ≥ toUInt32 intermediate_bytes_written))
            "UINT32_MAX - *bytes_written >= (uint32_t)intermediate_bytes_written"
          set_bytes_written ((written + toUInt32 intermediate_bytes_written) % 4294967296)
          pure true

def aes_256_cbc_encrypt (p : Process) (key iv inp out : Option Binary) : Run Bool := do
  invoke p Sym.EVP_aes_256_cbc p.ssl.EVP_aes_256_cbc p.ssl.EVP_aes_256_cbc
  _encrypt_with_cipher p p.ssl.EVP_aes_256_cbc key iv inp out

def aes_256_cbc_decrypt (p : Process) (key iv inp out : Option Binary) : Run Bool := do
  invoke p Sym.EVP_aes_256_cbc p.ssl.EVP_aes_256_cbc p.ssl.EVP_aes_256_cbc
  _decrypt_with_cipher p p.ssl.EVP_aes_256_cbc key iv inp out

def aes_256_ecb_encrypt (p : Process) (key iv inp out : Option Binary) : Run Bool := do
  invoke p Sym.EVP_aes_256_ecb p.ssl.EVP_aes_256_ecb p.ssl.EVP_aes_256_ecb
  _encrypt_with_cipher p p.ssl.EVP_aes_256_ecb key iv inp out

def aes_256_ctr_encrypt (p : Process) (key iv inp out : Option Binary) : Run Bool := do
  invoke p Sym.EVP_aes_256_ctr p.ssl.EVP_aes_256_ctr p.ssl.EVP_aes_256_ctr
  _encrypt_with_cipher p p.ssl.EVP_aes_256_ctr key iv inp out

def aes_256_ctr_decrypt (p : Process) (key iv inp out : Option Binary) : Run Bool := do
  invoke p Sym.EVP_aes_256_ctr p.ssl.EVP_aes_256_ctr p.ssl.EVP_aes_256_ctr
  _decrypt_with_cipher p p.ssl.EVP_aes_256_ctr key iv inp out

/-- The five cipher entry points. -/
inductive CipherFn
  | aes_256_cbc_encrypt | aes_256_cbc_decrypt | aes_256_ecb_encrypt
  | aes_256_ctr_encrypt | aes_256_ctr_decrypt
  deriving DecidableEq, Repr

/-- A call of the named cipher entry point. -/
def CipherFn.call (f : CipherFn) (p : Process) (key iv inp out : Option Binary) : Run Bool :=
  match f with
  | CipherFn.aes_256_cbc_encrypt => OpenSSLCrypto.aes_256_cbc_encrypt p key iv inp out
  | CipherFn.aes_256_cbc_decrypt => OpenSSLCrypto.aes_256_cbc_decrypt p key iv inp out
  | CipherFn.aes_256_ecb_encrypt => OpenSSLCrypto.aes_256_ecb_encrypt p key iv inp out
  | CipherFn.aes_256_ctr_encrypt => OpenSSLCrypto.aes_256_ctr_encrypt p key iv inp out
  | CipherFn.aes_256_ctr_decrypt => OpenSSLCrypto.aes_256_ctr_decrypt p key iv inp out

/-! ## MAC, random, digest and signing primitives -/

/-- The function `_hmac_with_hash`; `inp` is the parameter `in`. -/
def _hmac_with_hash (p : Process) (hash : Ptr) (key inp out : Option Binary) : Run Bool := do
  ASSERT (hash != 0) "hash"
  ASSERT key.isSome "key"
  ASSERT inp.isSome "in"
  ASSERT out.isSome "out"
  ASSERT (decide ((deref key).len ≤ INT_MAX)) "key->len <= INT_MAX"
  let mac := p.ssl.HMAC hash (deref key).data (toInt (deref key).len) (deref inp).data
    (deref inp).len (deref out).data
  invoke p Sym.HMAC 0 mac
  if mac == 0 then do
    report_error p "error initializing HMAC: "
    pure false
  else
    pure true

def hmac_sha_512 (p : Process) (key inp out : Option Binary) : Run Bool := do
  invoke p Sym.EVP_sha512 p.ssl.EVP_sha512 p.ssl.EVP_sha512
  _hmac_with_hash p p.ssl.EVP_sha512 key inp out

def hmac_sha_256 (p : Process) (key inp out : Option Binary) : Run Bool := do
  invoke p Sym.EVP_sha256 p.ssl.EVP_sha256 p.ssl.EVP_sha256
  _hmac_with_hash p p.ssl.EVP_sha256 key inp out

def random_fn (p : Process) (out : Option Binary) (count : Nat) : Run Bool := do
  ASSERT out.isSome "out"
  ASSERT (decide (count ≤ INT_MAX)) "count <= INT_MAX"
  let ret := p.ssl.RAND_bytes (deref out).data (toInt count)
  invoke p Sym.RAND_bytes 0 ret
  if ret == -1 then do
    report_error p "secure random IV not supported: "
    pure false
  else if ret == 0 then do
    report_error p "failed to generate random: "
    pure false
  else
    pure true

def _native_crypto_hmac_sha_256 (p : Process) (key inp out : Option Binary) : Run Bool := do
  invoke p Sym.EVP_sha256 p.ssl.EVP_sha256 p.ssl.EVP_sha256
  _hmac_with_hash p p.ssl.EVP_sha256 key inp out

/-- The function `sha_256`; `inp` is the parameter `in`. Both buffers are read without a
null check, so they are taken as present. -/
def sha_256 (p : Process) (inp out : Binary) : Run Bool := do
  let digest_ctxp := p.ssl.EVP_MD_CTX_new
  invoke p Sym.EVP_MD_CTX_new digest_ctxp digest_ctxp
  (Cleanup (invoke p Sym.EVP_MD_CTX_free digest_ctxp 0)).scope do
    S p Sym.EVP_DigestInit_ex
    invoke p Sym.EVP_sha256 p.ssl.EVP_sha256 p.ssl.EVP_sha256
    let init := p.ssl.EVP_DigestInit_ex digest_ctxp p.ssl.EVP_sha256
    Run.log { fn := Sym.EVP_DigestInit_ex, obj := digest_ctxp, ret := init }
    if 1 != init then
      pure false
    else do
      let update := p.ssl.EVP_DigestUpdate digest_ctxp inp.data inp.len
      invoke p Sym.EVP_DigestUpdate digest_ctxp update
      if 1 != update then
        pure false
      else do
        let final := p.ssl.EVP_DigestFinal_ex digest_ctxp out.data
        invoke p Sym.EVP_DigestFinal_ex digest_ctxp final
        pure (1 == final)

/-- The function `sign_rsa_sha256`; `inp` is the parameter `in`, `status` only says whether
the status pointer is null. The local `ret` is a `bool`: each `int` the library returns is
converted to `bool` by the assignment and promoted back to `int` by `ret != 1`. -/
def sign_rsa_sha256 (p : Process) (key inp out : Option Binary) (status : Bool) : Run Bool := do
  ASSERT key.isSome "key"
  ASSERT inp.isSome "in"
  ASSERT out.isSome "out"
  ASSERT status "status"
  let ctx := p.ssl.EVP_MD_CTX_new
  invoke p Sym.EVP_MD_CTX_new ctx ctx
  (Cleanup (invoke p Sym.EVP_MD_CTX_free ctx 0)).scope do
    ASSERT (decide ((deref key).len ≤ p.LONG_MAX)) "key->len <= LONG_MAX"
    let pkey := p.ssl.d2i_PrivateKey (deref key).data (toLong (deref key).len)
    invoke p Sym.d2i_PrivateKey pkey pkey
    (Cleanup (invoke p Sym.EVP_PKEY_free pkey 0)).scope do
      if pkey == 0 then
        pure false
      else do
        S p Sym.EVP_DigestSignInit
        invoke p Sym.EVP_sha256 p.ssl.EVP_sha256 p.ssl.EVP_sha256
        let init := p.ssl.EVP_DigestSignInit ctx p.ssl.EVP_sha256 pkey
        Run.log { fn := Sym.EVP_DigestSignInit, obj := ctx, ret := init }
        let ret := toBool init
        if ofBool ret != 1 then
          pure false
        else do
          let update := p.ssl.EVP_DigestSignUpdate ctx (deref inp).data (deref inp).len
          invoke p Sym.EVP_DigestSignUpdate ctx update
          let ret := toBool update
          if ofBool ret != 1 then
            pure false
          else do
            let final := p.ssl.EVP_DigestSignFinal ctx (deref out).data
            invoke p Sym.EVP_DigestSignFinal ctx final
            let ret := toBool final
            if ofBool ret != 1 then
              pure false
            else
              pure true

/-- The cipher descriptor the entry point asks the library for. -/
def CipherFn.cipher (f : CipherFn) (p : Process) : Ptr :=
  match f with
  | CipherFn.aes_256_cbc_encrypt => p.ssl.EVP_aes_256_cbc
  | CipherFn.aes_256_cbc_decrypt => p.ssl.EVP_aes_256_cbc
  | CipherFn.aes_256_ecb_encrypt => p.ssl.EVP_aes_256_ecb
  | CipherFn.aes_256_ctr_encrypt => p.ssl.EVP_aes_256_ctr
  | CipherFn.aes_256_ctr_decrypt => p.ssl.EVP_aes_256_ctr

/-- Whether the entry point goes through `_encrypt_with_cipher`. -/
def CipherFn.encrypts (f : CipherFn) : Bool :=
  match f with
  | CipherFn.aes_256_cbc_encrypt => true
  | CipherFn.aes_256_cbc_decrypt => false
  | CipherFn.aes_256_ecb_encrypt => true
  | CipherFn.aes_256_ctr_encrypt => true
  | CipherFn.aes_256_ctr_decrypt => false

/-! ## The hook table and its factory -/

/-- The functions of this file that can be entries of the hook table. -/
inductive HookFn
  | aes_256_cbc_encrypt | aes_256_cbc_decrypt | aes_256_ecb_encrypt
  | hmac_sha_512 | hmac_sha_256 | random_fn
  | aes_256_ctr_encrypt | aes_256_ctr_decrypt
  | _native_crypto_hmac_sha_256 | sha_256 | sign_rsa_sha256
  deriving DecidableEq, Repr

/-- Modelled from the spec: `CryptoHooks` is declared in `mongocrypt.h`, which is not among
the sources; the spec describes it as a backend-identity string and a collection of entry
points. The entries are the values of the brace initializer after the string, in order;
`none` is `nullptr`. -/
structure CryptoHooks where
  id : String
  slots : List (Option HookFn)
  deriving DecidableEq, Repr

def createOpenSSLCryptoHooks (p : Process) : Except Exn (Option CryptoHooks) :=
  match S_Unchecked p Sym.OpenSSL_version_num with
  | Except.error e => Except.error e
  | Except.ok version_num_fn =>
    if !version_num_fn then Except.ok none
    else
      let openssl_version := p.ssl.OpenSSL_version_num
      if openssl_version < 0x30000000 || openssl_version >= 0x40000000 then Except.ok none
      else Except.ok (some {
        id := "native_openssl",
        slots := [
          some HookFn.aes_256_cbc_encrypt,
          some HookFn.aes_256_cbc_decrypt,
          some HookFn.random_fn,
          some HookFn.hmac_sha_512,
          some HookFn.hmac_sha_256,
          some HookFn.sha_256,
          some HookFn.aes_256_ctr_encrypt,
          some HookFn.aes_256_ctr_decrypt,
          none,
          some HookFn.sign_rsa_sha256,
          none ] })

/-! ## Vocabulary of the properties -/

/-- Every OpenSSL symbol the addon refers to resolves: the build is static, or the process
handle opens and each lookup finds its symbol. -/
def Process.bound (p : Process) : Prop := ∀ s : Sym, S_Unchecked p s = Except.ok true

/-- The state at the entry of a call: the caller's out-parameters, no library call yet. -/
def Mem.entry (bytes_written : Nat) (status : Status) : Mem :=
  { bytes_written := bytes_written, status := status, trace := [] }

/-- The Init / Update / Final transforms of the cipher API. -/
def Sym.is_transform (s : Sym) : Bool :=
  s ∈ [Sym.EVP_EncryptInit_ex, Sym.EVP_EncryptUpdate, Sym.EVP_EncryptFinal_ex,
    Sym.EVP_DecryptInit_ex, Sym.EVP_DecryptUpdate, Sym.EVP_DecryptFinal_ex]

/-- The library function the entry point calls for its cipher descriptor. -/
def CipherFn.descriptor (f : CipherFn) : Sym :=
  match f with
  | CipherFn.aes_256_cbc_encrypt => Sym.EVP_aes_256_cbc
  | CipherFn.aes_256_cbc_decrypt => Sym.EVP_aes_256_cbc
  | CipherFn.aes_256_ecb_encrypt => Sym.EVP_aes_256_ecb
  | CipherFn.aes_256_ctr_encrypt => Sym.EVP_aes_256_ctr
  | CipherFn.aes_256_ctr_decrypt => Sym.EVP_aes_256_ctr

/-- The state after a scoped cleanup has recorded its call (none after `std::terminate`). -/
def close {α : Type} (ev : Event) (r : Except Exn α × Mem) : Except Exn α × Mem :=
  match r with
  | (Except.error Exn.terminate, m) => (Except.error Exn.terminate, m)
  | (x, m) => (x, { m with trace := m.trace ++ [ev] })

/-- Whether the call passes the precondition asserts that stand before the init call in
`_encrypt_with_cipher` / `_decrypt_with_cipher`. -/
def CipherFn.pre (f : CipherFn) (p : Process) (key iv inp out : Option Binary) : Bool :=
  key.isSome && inp.isSome && out.isSome && (f.encrypts || iv.isSome) &&
  (p.ssl.EVP_CIPHER_CTX_new != 0) && (f.cipher p != 0) &&
  (match iv with
    | none => true
    | some b => toUInt32 (p.ssl.EVP_CIPHER_get_iv_length (f.cipher p)) == b.len) &&
  (toUInt32 (p.ssl.EVP_CIPHER_get_key_length (f.cipher p)) == (deref key).len) &&
  decide ((deref inp).len ≤ INT_MAX)

/-- The library's answer to the init call of the entry point. -/
def CipherFn.init (f : CipherFn) (p : Process) (key iv : Option Binary) : Int :=
  if f.encrypts then
    p.ssl.EVP_EncryptInit_ex p.ssl.EVP_CIPHER_CTX_new (f.cipher p) (deref key).data
      (data_or_null iv)
  else
    p.ssl.EVP_DecryptInit_ex p.ssl.EVP_CIPHER_CTX_new (f.cipher p) (deref key).data
      (deref iv).data

/-- The library's answer to the update call of the entry point: return code and byte count. -/
def CipherFn.update (f : CipherFn) (p : Process) (inp out : Option Binary) : Int × Int :=
  if f.encrypts then
    p.ssl.EVP_EncryptUpdate p.ssl.EVP_CIPHER_CTX_new (deref out).data (deref inp).data
      (toInt (deref inp).len)
  else
    p.ssl.EVP_DecryptUpdate p.ssl.EVP_CIPHER_CTX_new (deref out).data (deref inp).data
      (toInt (deref inp).len)

/-- The library's answer to the finalize call of the entry point: return code and byte count. -/
def CipherFn.final (f : CipherFn) (p : Process) (out : Option Binary) : Int × Int :=
  if f.encrypts then p.ssl.EVP_EncryptFinal_ex p.ssl.EVP_CIPHER_CTX_new (deref out).data
  else p.ssl.EVP_DecryptFinal_ex p.ssl.EVP_CIPHER_CTX_new (deref out).data

def CipherFn.init_fn (f : CipherFn) : Sym :=
  if f.encrypts then Sym.EVP_EncryptInit_ex else Sym.EVP_DecryptInit_ex

def CipherFn.update_fn (f : CipherFn) : Sym :=
  if f.encrypts then Sym.EVP_EncryptUpdate else Sym.EVP_DecryptUpdate

def CipherFn.final_fn (f : CipherFn) : Sym :=
  if f.encrypts then Sym.EVP_EncryptFinal_ex else Sym.EVP_DecryptFinal_ex

/-- The status a failing step leaves: kind client-error, code 1, the step's text followed
by the library's error string. -/
def client_error (p : Process) (step : String) : Status :=
  { kind := StatusKind.MONGOCRYPT_STATUS_ERROR_CLIENT, code := 1,
    message := step ++ p.ssl.ERR_error_string p.ssl.ERR_get_error,
    message_len := (step ++ p.ssl.ERR_error_string p.ssl.ERR_get_error).utf8ByteSize + 1 }

/-- The release function for the native objects a library function creates. -/
def Sym.release_of (s : Sym) : Option Sym :=
  if s = Sym.EVP_CIPHER_CTX_new then some Sym.EVP_CIPHER_CTX_free
  else if s = Sym.EVP_MD_CTX_new then some Sym.EVP_MD_CTX_free
  else if s = Sym.d2i_PrivateKey then some Sym.EVP_PKEY_free
  else none

/-- The functions that release a native object. -/
def Sym.is_release (s : Sym) : Bool :=
  s ∈ [Sym.EVP_CIPHER_CTX_free, Sym.EVP_MD_CTX_free, Sym.EVP_PKEY_free]

/-- Follows a trace with the objects that are alive, each with its release function. A
creating call that returns a non-null pointer adds the object; a release of a live object
removes it; a release of null does nothing; a release of anything else (an object never
created, or released before) stops the walk with `none`. -/
def track (live : List (Sym × Ptr)) : List Event → Option (List (Sym × Ptr))
  | [] => some live
  | e :: es =>
    match e.fn.release_of with
    | some free => if e.obj = 0 then track live es else track ((free, e.obj) :: live) es
    | none =>
      if e.fn.is_release then
        if e.obj = 0 then track live es
        else if (e.fn, e.obj) ∈ live then track (live.erase (e.fn, e.obj)) es
        else none
      else track live es

/-- Every object the trace creates is released exactly once by the end of the trace: the
walk never meets a release of an object that is not alive, and nothing is alive at the end. -/
def released_once (t : List Event) : Bool := track [] t == some []

/-! ## Sample inputs -/

/-- A library that behaves: AES-256 descriptors with a 16-byte IV (none for ECB) and a
32-byte key, every step succeeds, update writes as many bytes as it reads, finalize none. -/
def ssl_ok : OpenSSL :=
  { OpenSSL_version_num := 0x30000000
    EVP_CIPHER_CTX_new := 7
    EVP_aes_256_cbc := 1
    EVP_aes_256_ecb := 2
    EVP_aes_256_ctr := 3
    EVP_CIPHER_get_iv_length := fun cipher => if cipher = 2 then 0 else 16
    EVP_CIPHER_get_key_length := fun _ => 32
    EVP_EncryptInit_ex := fun _ _ _ _ => 1
    EVP_EncryptUpdate := fun _ _ _ inl => (1, inl)
    EVP_EncryptFinal_ex := fun _ _ => (1, 0)
    EVP_DecryptInit_ex := fun _ _ _ _ => 1
    EVP_DecryptUpdate := fun _ _ _ inl => (1, inl)
    EVP_DecryptFinal_ex := fun _ _ => (1, 0)
    ERR_get_error := 5
    ERR_error_string := fun _ => "error:00000005:lib(0)::reason(5)"
    EVP_sha256 := 4
    EVP_sha512 := 5
    HMAC := fun _ _ _ _ _ out => out
    RAND_bytes := fun _ _ => 1
    EVP_MD_CTX_new := 8
    EVP_DigestInit_ex := fun _ _ => 1
    EVP_DigestUpdate := fun _ _ _ => 1
    EVP_DigestFinal_ex := fun _ _ => 1
    d2i_PrivateKey := fun _ _ => 9
    EVP_DigestSignInit := fun _ _ _ => 1
    EVP_DigestSignUpdate := fun _ _ _ => 1
    EVP_DigestSignFinal := fun _ _ => 1 }

/-- A process with `ssl_ok` linked statically. -/
def proc_ok : Process :=
  { static_openssl := true, handle := true, dlsym := fun _ => true,
    LONG_MAX := 9223372036854775807, ssl := ssl_ok }

/-- A process whose library refuses the encrypt init call. -/
def proc_init_fails : Process :=
  { proc_ok with ssl := { ssl_ok with EVP_EncryptInit_ex := fun _ _ _ _ => 0 } }

/-- A process whose library answers -2 (operation not supported) to `EVP_DigestSignInit`. -/
def proc_sign_unsupported : Process :=
  { proc_ok with ssl := { ssl_ok with EVP_DigestSignInit := fun _ _ _ => -2 } }

/-- A process whose library reports 0 bytes from the encrypt update and -1 from finalize. -/
def proc_final_negative : Process :=
  { proc_ok with ssl := { ssl_ok with EVP_EncryptUpdate := fun _ _ _ _ => (1, 0),
                                       EVP_EncryptFinal_ex := fun _ _ => (1, -1) } }

/-- A fresh status. -/
def status_ok : Status :=
  { kind := StatusKind.MONGOCRYPT_STATUS_OK, code := 0, message := "", message_len := 0 }

/-! ## Running the monad -/

@[simp] theorem bind_run {α β : Type} (x : Run α) (f : α → Run β) :
    (x >>= f) = Run.bind x f := rfl

@[simp] theorem pure_run {α : Type} (a : α) : (pure a : Run α) = Run.pure a := rfl

theorem ite_run {α : Type} (c : Prop) [Decidable c] (x y : Run α) (m : Mem) :
    (if c then x else y) m = if c then x m else y m := by
  split <;> rfl

theorem ite_ind {α : Type} (P : α → Prop) {c : Prop} [Decidable c] {a b : α}
    (ha : c → P a) (hb : ¬c → P b) : P (if c then a else b) := by
  split
  · exact ha ‹_›
  · exact hb ‹_›

theorem S_bound {p : Process} (hb : p.bound) (s : Sym) (m : Mem) :
    S p s m = (Except.ok (), m) := by
  simp [S, hb s]

theorem invoke_bound {p : Process} (hb : p.bound) (fn : Sym) (obj : Ptr) (ret : Int) (m : Mem) :
    invoke p fn obj ret m
      = (Except.ok (), { m with trace := m.trace ++ [{ fn := fn, obj := obj, ret := ret }] }) := by
  simp [invoke, Run.bind, S_bound hb, Run.log]

theorem report_error_bound {p : Process} (hb : p.bound) (step : String) (m : Mem) :
    report_error p step m
      = (Except.ok (), { m with
          status :=
            { kind := StatusKind.MONGOCRYPT_STATUS_ERROR_CLIENT, code := 1,
              message := step ++ p.ssl.ERR_error_string p.ssl.ERR_get_error,
              message_len :=
                (step ++ p.ssl.ERR_error_string p.ssl.ERR_get_error).utf8ByteSize + 1 },
          trace := m.trace ++
            [{ fn := Sym.ERR_get_error, obj := 0, ret := (p.ssl.ERR_get_error : Int) },
             { fn := Sym.ERR_error_string, obj := 0, ret := 0 }] }) := by
  simp [report_error, Run.bind, S_bound hb, invoke_bound hb, Run.log, mongocrypt_status_set]

theorem scope_close {α : Type} {p : Process} (hb : p.bound) (fn : Sym) (obj : Ptr) (ret : Int)
    (body : Run α) (m : Mem) :
    (Cleanup (invoke p fn obj ret)).scope body m
      = close { fn := fn, obj := obj, ret := ret } (body m) := by
  unfold CleanupImpl.scope close
  rcases body m with ⟨x, m1⟩
  cases x with
  | ok a => simp [Cleanup, CleanupImpl.ctor, CleanupImpl.dtor, invoke_bound hb]
  | error e => cases e <;> simp [Cleanup, CleanupImpl.ctor, CleanupImpl.dtor, invoke_bound hb]

theorem close_ite {α : Type} (ev : Event) (c : Prop) [Decidable c]
    (a b : Except Exn α × Mem) :
    close ev (if c then a else b) = if c then close ev a else close ev b := by
  split <;> rfl

theorem close_ok {α : Type} (ev : Event) (a : α) (m : Mem) :
    close ev (Except.ok a, m) = (Except.ok a, { m with trace := m.trace ++ [ev] }) := rfl

theorem close_assertion {α : Type} (ev : Event) (e : String) (m : Mem) :
    @close α ev (Except.error (Exn.assertion e), m)
      = (Except.error (Exn.assertion e), { m with trace := m.trace ++ [ev] }) := rfl

theorem bind_ASSERT {α : Type} (c : Bool) (e : String) (f : Unit → Run α) (m : Mem) :
    Run.bind (ASSERT c e) f m
      = if c = true then f () m else (Except.error (Exn.assertion e), m) := by
  cases c <;> simp [Run.bind, ASSERT]

theorem bind_invoke {α : Type} {p : Process} (hb : p.bound) (fn : Sym) (obj : Ptr) (ret : Int)
    (f : Unit → Run α) (m : Mem) :
    Run.bind (invoke p fn obj ret) f m
      = f () { m with trace := m.trace ++ [{ fn := fn, obj := obj, ret := ret }] } := by
  simp [Run.bind, invoke_bound hb]

theorem bind_report_error {α : Type} {p : Process} (hb : p.bound) (step : String)
    (f : Unit → Run α) (m : Mem) :
    Run.bind (report_error p step) f m
      = f () { m with
          status :=
            { kind := StatusKind.MONGOCRYPT_STATUS_ERROR_CLIENT, code := 1,
              message := step ++ p.ssl.ERR_error_string p.ssl.ERR_get_error,
              message_len :=
                (step ++ p.ssl.ERR_error_string p.ssl.ERR_get_error).utf8ByteSize + 1 },
          trace := m.trace ++
            [{ fn := Sym.ERR_get_error, obj := 0, ret := (p.ssl.ERR_get_error : Int) },
             { fn := Sym.ERR_error_string, obj := 0, ret := 0 }] } := by
  simp [Run.bind, report_error_bound hb]

theorem bind_pure {α β : Type} (a : α) (f : α → Run β) (m : Mem) :
    Run.bind (Run.pure a) f m = f a m := rfl

theorem bind_set_bytes_written {α : Type} (n : Nat) (f : Unit → Run α) (m : Mem) :
    Run.bind (set_bytes_written n) f m = f () { m with bytes_written := n } := rfl

theorem bind_get_bytes_written {α : Type} (f : Nat → Run α) (m : Mem) :
    Run.bind get_bytes_written f m = f m.bytes_written m := rfl

theorem bind_S {α : Type} {p : Process} (hb : p.bound) (s : Sym) (f : Unit → Run α) (m : Mem) :
    Run.bind (S p s) f m = f () m := by
  simp [Run.bind, S_bound hb]

theorem bind_log {α : Type} (e : Event) (f : Unit → Run α) (m : Mem) :
    Run.bind (Run.log e) f m = f () { m with trace := m.trace ++ [e] } := rfl

theorem ite_imp {α : Type} {Q : Prop} {c : Prop} [Decidable c] {a b r : α}
    (ha : c → a = r → Q) (hb : ¬c → b = r → Q) : (if c then a else b) = r → Q := by
  intro h
  split at h
  · exact ha ‹_› h
  · exact hb ‹_› h

theorem toUInt32_of_int {x : Int} (h0 : 0 ≤ x) (h1 : x ≤ INT_MAX) : (toUInt32 x : Int) = x := by
  unfold toUInt32 INT_MAX at *
  omega

theorem toInt_of_le {n : Nat} (h : n ≤ INT_MAX) : toInt n = (n : Int) := by
  unfold toInt INT_MAX at *
  have h1 : n % 4294967296 = n := Nat.mod_eq_of_lt (by omega)
  rw [h1, if_pos (by omega)]

theorem descriptor_not_resource (f : CipherFn) :
    f.descriptor.release_of = none ∧ f.descriptor.is_release = false := by
  cases f <;> exact ⟨rfl, rfl⟩

theorem track_skip (live : List (Sym × Ptr)) (fn : Sym) (obj : Ptr) (ret : Int)
    (es : List Event) (h1 : fn.release_of = none) (h2 : fn.is_release = false) :
    track live ({ fn := fn, obj := obj, ret := ret } :: es) = track live es := by
  simp [track, h1, h2]

theorem proc_ok_bound : proc_ok.bound := fun _ => rfl

theorem call_eq {p : Process} (hb : p.bound) (f : CipherFn) (key iv inp out : Option Binary)
    (m : Mem) :
    f.call p key iv inp out m
      = (if f.encrypts = true then _encrypt_with_cipher p (f.cipher p) key iv inp out
          else _decrypt_with_cipher p (f.cipher p) key iv inp out)
          { m with trace := m.trace ++
              [{ fn := f.descriptor, obj := f.cipher p, ret := (f.cipher p : Int) }] } := by
  cases f <;>
    simp only [CipherFn.call, CipherFn.encrypts, CipherFn.cipher, CipherFn.descriptor,
      aes_256_cbc_encrypt, aes_256_cbc_decrypt, aes_256_ecb_encrypt, aes_256_ctr_encrypt,
      aes_256_ctr_decrypt, bind_run, bind_invoke hb, if_true, Bool.false_eq_true, if_false]

theorem descriptor_not_transform (f : CipherFn) : f.descriptor.is_transform = false := by
  cases f <;> rfl

/-! ## The claims -/

set_option maxHeartbeats 1000000

/-- C1 as stated fails: in a dynamic build whose process handle does not open, the lookup of
`OpenSSL_version_num` gives no symbol, and `createOpenSSLCryptoHooks` does not return the
empty result: the exception of `OwnProcessDylib()` leaves it. -/
theorem gate_process_handle_counterexample :
    S_Unchecked { proc_ok with static_openssl := false, handle := false }
        Sym.OpenSSL_version_num = Except.error Exn.process_handle ∧
    createOpenSSLCryptoHooks { proc_ok with static_openssl := false, handle := false }
      = Except.error Exn.process_handle ∧
    createOpenSSLCryptoHooks { proc_ok with static_openssl := false, handle := false }
      ≠ Except.ok none := by
  refine ⟨rfl, rfl, ?_⟩
  rw [show createOpenSSLCryptoHooks { proc_ok with static_openssl := false, handle := false }
    = Except.error Exn.process_handle from rfl]
  simp

/-- C1, amended: `createOpenSSLCryptoHooks` returns a hook table exactly when the lookup of
`OpenSSL_version_num` gives a symbol and the version `v` it reports satisfies
`0x30000000 <= v < 0x40000000`. When the lookup finds no symbol, or `v` is below
`0x30000000`, or `v` is at or above `0x40000000`, it returns the empty result and throws
nothing. It throws in one case only, a dynamic build whose process handle does not open,
and then what it throws is the lookup's "Could not open process handle"; whenever the
build is static or the handle opens, every call that returns no table returns the empty
result. -/
theorem gate_accepts_iff (p : Process) :
    ((∃ hooks, createOpenSSLCryptoHooks p = Except.ok (some hooks)) ↔
      (S_Unchecked p Sym.OpenSSL_version_num = Except.ok true ∧
        0x30000000 ≤ p.ssl.OpenSSL_version_num ∧ p.ssl.OpenSSL_version_num < 0x40000000)) ∧
    (S_Unchecked p Sym.OpenSSL_version_num = Except.ok false →
      createOpenSSLCryptoHooks p = Except.ok none) ∧
    (S_Unchecked p Sym.OpenSSL_version_num = Except.ok true →
      p.ssl.OpenSSL_version_num < 0x30000000 →
      createOpenSSLCryptoHooks p = Except.ok none) ∧
    (S_Unchecked p Sym.OpenSSL_version_num = Except.ok true →
      0x40000000 ≤ p.ssl.OpenSSL_version_num →
      createOpenSSLCryptoHooks p = Except.ok none) ∧
    (∀ e, createOpenSSLCryptoHooks p = Except.error e ↔
      (p.static_openssl = false ∧ p.handle = false ∧ e = Exn.process_handle)) ∧
    (p.static_openssl = true ∨ p.handle = true →
      (¬ ∃ hooks, createOpenSSLCryptoHooks p = Except.ok (some hooks)) →
      createOpenSSLCryptoHooks p = Except.ok none) := by
  unfold createOpenSSLCryptoHooks S_Unchecked opensslsym
  cases hs : p.static_openssl <;> cases hh : p.handle <;> cases hd : p.dlsym Sym.OpenSSL_version_num
  all_goals
    by_cases h1 : p.ssl.OpenSSL_version_num < 0x30000000
    · simp [h1]
      try (first | omega | exact fun e => eq_comm)
    · by_cases h2 : 0x40000000 ≤ p.ssl.OpenSSL_version_num
      · simp [h1, h2]
        try (first | omega | exact fun e => eq_comm)
      · simp [h1, h2]
        try (first | omega | exact fun e => eq_comm)

/-- C1, amended, at the versions `0x2FFFFFFF` and `0x40000000` of a dynamically found
library, and at a process without the symbol: the empty result each time. -/
theorem gate_accepts_iff_witness :
    createOpenSSLCryptoHooks
        { proc_ok with static_openssl := false,
                       ssl := { ssl_ok with OpenSSL_version_num := 0x2FFFFFFF } }
      = Except.ok none ∧
    createOpenSSLCryptoHooks
        { proc_ok with static_openssl := false,
                       ssl := { ssl_ok with OpenSSL_version_num := 0x40000000 } }
      = Except.ok none ∧
    createOpenSSLCryptoHooks
        { proc_ok with static_openssl := false, dlsym := fun _ => false }
      = Except.ok none :=
  ⟨(gate_accepts_iff _).2.2.1 rfl (by decide),
   (gate_accepts_iff _).2.2.2.1 rfl (by decide),
   (gate_accepts_iff _).2.1 rfl⟩

/-- C2: a cipher entry point called with an IV whose length differs from the descriptor's IV
length (as the code reads it, `(uint32_t)EVP_CIPHER_get_iv_length(cipher)`), or with a key
whose length differs from the descriptor's key length, ends in an assertion failure: it
does not return, it makes no Init / Update / Final call, and it leaves `bytes_written` and
the status as they were. -/
theorem cipher_wrong_length_aborts (f : CipherFn) (p : Process) (key iv inp out : Option Binary)
    (bw : Nat) (st : Status) (hb : p.bound)
    (hlen : (∃ b, iv = some b ∧ b.len ≠ toUInt32 (p.ssl.EVP_CIPHER_get_iv_length (f.cipher p))) ∨
            (∃ b, key = some b ∧
              b.len ≠ toUInt32 (p.ssl.EVP_CIPHER_get_key_length (f.cipher p)))) :
    ∃ expr calls,
      f.call p key iv inp out (Mem.entry bw st)
        = (Except.error (Exn.assertion expr),
            { bytes_written := bw, status := st, trace := calls }) ∧
      ∀ e ∈ calls, e.fn.is_transform = false := by
  have hd := descriptor_not_transform f
  obtain ⟨P, hP⟩ : ∃ P : Except Exn Bool × Mem → Prop, P = fun r =>
      ∃ expr calls, r = (Except.error (Exn.assertion expr),
          { bytes_written := bw, status := st, trace := calls }) ∧
        ∀ e ∈ calls, e.fn.is_transform = false := ⟨_, rfl⟩
  suffices h : P (f.call p key iv inp out (Mem.entry bw st)) by rw [hP] at h; exact h
  rw [call_eq hb]
  generalize f.cipher p = cipher at hlen ⊢
  generalize f.descriptor = d at hd ⊢
  rcases hlen with ⟨b, rfl, hne⟩ | ⟨b, rfl, hne⟩
  · have h6 := beq_false_of_ne (Ne.symm hne)
    cases f.encrypts
    all_goals
      simp only [_encrypt_with_cipher, _decrypt_with_cipher, bind_run, pure_run, bind_invoke hb,
        scope_close hb, bind_ASSERT, bind_pure, ite_run, bind_set_bytes_written,
        bind_get_bytes_written, bind_report_error hb, close_ite, Run.pure, close_ok, close_assertion, Mem.entry,
        deref, Option.getD_some, h6, Bool.false_eq_true, if_false, if_true,
        List.nil_append, List.append_assoc, List.cons_append]
      repeat' (refine ite_ind P (fun _ => ?_) (fun _ => ?_))
      all_goals
        subst hP
        refine ⟨_, _, rfl, List.forall_mem_cons.2 ⟨hd, ?_⟩⟩
        simp [Sym.is_transform]
  · have h6 := beq_false_of_ne (Ne.symm hne)
    cases f.encrypts <;> cases iv
    all_goals
      simp only [_encrypt_with_cipher, _decrypt_with_cipher, bind_run, pure_run, bind_invoke hb,
        scope_close hb, bind_ASSERT, bind_pure, ite_run, bind_set_bytes_written,
        bind_get_bytes_written, bind_report_error hb, close_ite, Run.pure, close_ok, close_assertion, Mem.entry,
        deref, Option.getD_some, h6, Bool.false_eq_true, if_false, if_true,
        List.nil_append, List.append_assoc, List.cons_append]
      repeat' (refine ite_ind P (fun _ => ?_) (fun _ => ?_))
      all_goals
        subst hP
        refine ⟨_, _, rfl, List.forall_mem_cons.2 ⟨hd, ?_⟩⟩
        simp [Sym.is_transform]

/-- C2 at a 15-byte IV for CBC, whose descriptor asks for 16 bytes. -/
theorem cipher_wrong_length_aborts_witness :
    ∃ expr calls,
      CipherFn.aes_256_cbc_encrypt.call proc_ok (some { data := 100, len := 32 })
          (some { data := 200, len := 15 }) (some { data := 300, len := 16 })
          (some { data := 400, len := 16 }) (Mem.entry 0 status_ok)
        = (Except.error (Exn.assertion expr),
            { bytes_written := 0, status := status_ok, trace := calls }) ∧
      ∀ e ∈ calls, e.fn.is_transform = false :=
  cipher_wrong_length_aborts CipherFn.aes_256_cbc_encrypt proc_ok _ _ _ _ 0 status_ok
    proc_ok_bound (Or.inl ⟨_, rfl, by decide⟩)

/-- The predicate `CipherFn.pre` is the code's own precondition: a cipher call reaches its
init call exactly when `pre` holds. -/
theorem pre_iff_init_called (f : CipherFn) (p : Process) (key iv inp out : Option Binary)
    (bw : Nat) (st : Status) (hb : p.bound) :
    f.pre p key iv inp out = true ↔
      ∃ e ∈ (f.call p key iv inp out (Mem.entry bw st)).2.trace, e.fn = f.init_fn := by
  have hd := descriptor_not_transform f
  generalize hr : f.call p key iv inp out (Mem.entry bw st) = r
  rw [call_eq hb] at hr
  simp only [CipherFn.pre, CipherFn.init_fn]
  generalize f.cipher p = cipher at *
  generalize f.descriptor = d at *
  cases hf : f.encrypts <;> cases iv <;> cases key <;> cases inp <;> cases out
  all_goals
    simp only [_encrypt_with_cipher, _decrypt_with_cipher, bind_run, pure_run, bind_invoke hb,
      scope_close hb, bind_ASSERT, bind_pure, ite_run, bind_set_bytes_written,
      bind_get_bytes_written, bind_report_error hb, close_ite, Run.pure, close_ok, close_assertion, Mem.entry,
      deref, Option.getD_some, data_or_null, hf, Option.isSome_some, Option.isSome_none,
      Bool.false_eq_true, if_false, if_true,
      List.nil_append, List.append_assoc, List.cons_append] at hr
    revert hr
    repeat' (refine ite_imp (fun _ => ?_) (fun _ => ?_))
    all_goals
      intro hr
      subst hr
      dsimp only
      simp_all [Sym.is_transform, deref]

/-- C3: a cipher call that passes its precondition asserts returns `false` exactly when one
of the init / update / finalize calls it made returned 0. The failing step sets the status
to client-error, code 1, its own text followed by the library's error string; no later
step is called; `bytes_written` is untouched when init fails, 0 when update fails, and the
update count when finalize fails. When the call does not return `false` the status is left
as it was. -/
theorem cipher_failure_reporting (f : CipherFn) (p : Process) (key iv inp out : Option Binary)
    (bw : Nat) (st : Status) (hb : p.bound) (hpre : f.pre p key iv inp out = true) :
    ((f.call p key iv inp out (Mem.entry bw st)).1 = Except.ok false ↔
      ∃ e ∈ (f.call p key iv inp out (Mem.entry bw st)).2.trace,
        e.fn.is_transform = true ∧ e.ret = 0) ∧
    (f.init p key iv = 0 →
      (f.call p key iv inp out (Mem.entry bw st)).1 = Except.ok false ∧
      (f.call p key iv inp out (Mem.entry bw st)).2.status
        = client_error p (if f.encrypts then "error in EVP_EncryptInit_ex: "
            else "error in EVP_DecryptInit_ex: ") ∧
      (f.call p key iv inp out (Mem.entry bw st)).2.bytes_written = bw ∧
      ∀ e ∈ (f.call p key iv inp out (Mem.entry bw st)).2.trace,
        e.fn ≠ f.update_fn ∧ e.fn ≠ f.final_fn) ∧
    (f.init p key iv ≠ 0 → (f.update p inp out).1 = 0 →
      (f.call p key iv inp out (Mem.entry bw st)).1 = Except.ok false ∧
      (f.call p key iv inp out (Mem.entry bw st)).2.status
        = client_error p (if f.encrypts then "error in EVP_EncryptUpdate: "
            else "error in EVP_DecryptUpdate: ") ∧
      (f.call p key iv inp out (Mem.entry bw st)).2.bytes_written = 0 ∧
      ∀ e ∈ (f.call p key iv inp out (Mem.entry bw st)).2.trace, e.fn ≠ f.final_fn) ∧
    (f.init p key iv ≠ 0 → (f.update p inp out).1 ≠ 0 →
      0 ≤ (f.update p inp out).2 → toUInt64 (f.update p inp out).2 ≤ UINT32_MAX →
      (f.final p out).1 = 0 →
      (f.call p key iv inp out (Mem.entry bw st)).1 = Except.ok false ∧
      (f.call p key iv inp out (Mem.entry bw st)).2.status
        = client_error p (if f.encrypts then "error in EVP_EncryptFinal_ex: "
            else "error in EVP_DecryptFinal_ex: ") ∧
      (f.call p key iv inp out (Mem.entry bw st)).2.bytes_written
        = toUInt32 (f.update p inp out).2 ∧
      ((f.update p inp out).2 ≤ INT_MAX →
        ((f.call p key iv inp out (Mem.entry bw st)).2.bytes_written : Int)
          = (f.update p inp out).2)) ∧
    ((f.call p key iv inp out (Mem.entry bw st)).1 = Except.ok false →
      ∃ step ∈ (if f.encrypts then
            ["error in EVP_EncryptInit_ex: ", "error in EVP_EncryptUpdate: ",
              "error in EVP_EncryptFinal_ex: "]
          else
            ["error in EVP_DecryptInit_ex: ", "error in EVP_DecryptUpdate: ",
              "error in EVP_DecryptFinal_ex: "]),
        (f.call p key iv inp out (Mem.entry bw st)).2.status = client_error p step) ∧
    ((f.call p key iv inp out (Mem.entry bw st)).1 ≠ Except.ok false →
      (f.call p key iv inp out (Mem.entry bw st)).2.status = st) := by
  have hd := descriptor_not_transform f
  generalize hr : f.call p key iv inp out (Mem.entry bw st) = r
  rw [call_eq hb] at hr
  simp only [CipherFn.pre, Bool.and_eq_true, bne_iff_ne, ne_eq, decide_eq_true_eq] at hpre
  obtain ⟨⟨⟨⟨⟨⟨⟨⟨h1, h2⟩, h3⟩, h4⟩, h5⟩, h6⟩, h7⟩, h8⟩, h9⟩ := hpre
  have h5b : (p.ssl.EVP_CIPHER_CTX_new != 0) = true := by simpa using h5
  have h6b : (f.cipher p != 0) = true := by simpa using h6
  have h9b : decide ((deref inp).len ≤ INT_MAX) = true := by simpa using h9
  simp only [CipherFn.init, CipherFn.update, CipherFn.final, CipherFn.init_fn,
    CipherFn.update_fn, CipherFn.final_fn]
  generalize f.cipher p = cipher at *
  generalize f.descriptor = d at *
  cases hf : f.encrypts <;> cases iv
  all_goals
    simp only [hf, Bool.false_or, Option.isSome_none, Bool.false_eq_true] at h4
  all_goals
    simp only [deref, Option.getD_some] at h8 h9b h7 ⊢
    simp only [_encrypt_with_cipher, _decrypt_with_cipher, bind_run, pure_run, bind_invoke hb,
      scope_close hb, bind_ASSERT, bind_pure, ite_run, bind_set_bytes_written,
      bind_get_bytes_written, bind_report_error hb, close_ite, Run.pure, close_ok, close_assertion, Mem.entry,
      deref, Option.getD_some, data_or_null,
      hf, h1, h2, h3, h5b, h6b, h7, h8, h9b, Option.isSome_some,
      Bool.false_eq_true, if_false, if_true,
      List.nil_append, List.append_assoc, List.cons_append] at hr
    revert hr
    repeat' (refine ite_imp (fun _ => ?_) (fun _ => ?_))
    all_goals
      intro hr
      subst hr
      dsimp only
      simp_all [client_error, Sym.is_transform, data_or_null]
      try (intro h; rename_i hx _; exact toUInt32_of_int hx.1 h)

/-- C3 at a CBC encryption whose init call fails: `false`, the init message, and
`bytes_written` still at the caller's 7. -/
theorem cipher_failure_reporting_witness :
    (CipherFn.aes_256_cbc_encrypt.call proc_init_fails (some { data := 100, len := 32 })
        (some { data := 200, len := 16 }) (some { data := 300, len := 16 })
        (some { data := 400, len := 16 }) (Mem.entry 7 status_ok)).1 = Except.ok false ∧
    (CipherFn.aes_256_cbc_encrypt.call proc_init_fails (some { data := 100, len := 32 })
        (some { data := 200, len := 16 }) (some { data := 300, len := 16 })
        (some { data := 400, len := 16 }) (Mem.entry 7 status_ok)).2.status
      = client_error proc_init_fails "error in EVP_EncryptInit_ex: " ∧
    (CipherFn.aes_256_cbc_encrypt.call proc_init_fails (some { data := 100, len := 32 })
        (some { data := 200, len := 16 }) (some { data := 300, len := 16 })
        (some { data := 400, len := 16 }) (Mem.entry 7 status_ok)).2.bytes_written = 7 :=
  have h := (cipher_failure_reporting CipherFn.aes_256_cbc_encrypt proc_init_fails
    (some { data := 100, len := 32 }) (some { data := 200, len := 16 })
    (some { data := 300, len := 16 }) (some { data := 400, len := 16 }) 7 status_ok
    (fun _ => rfl) (by decide)).2.1 (by decide)
  ⟨h.1, h.2.1, h.2.2.1⟩

/-- C4 fails on the code: with an update count of 0 and a finalize count of -1 the call
returns `true` and stores 4294967295, the `(uint32_t)` image of -1, while the sum of the two
counts is -1. The finalize count is cast without the `>= 0` check the update count gets. -/
theorem cipher_negative_final_count_wraps :
    (CipherFn.aes_256_ctr_encrypt.call proc_final_negative (some { data := 100, len := 32 })
        (some { data := 200, len := 16 }) (some { data := 300, len := 0 })
        (some { data := 400, len := 0 }) (Mem.entry 0 status_ok)).1 = Except.ok true ∧
    (CipherFn.aes_256_ctr_encrypt.call proc_final_negative (some { data := 100, len := 32 })
        (some { data := 200, len := 16 }) (some { data := 300, len := 0 })
        (some { data := 400, len := 0 }) (Mem.entry 0 status_ok)).2.bytes_written
      = 4294967295 ∧
    (CipherFn.aes_256_ctr_encrypt.update proc_final_negative (some { data := 300, len := 0 })
        (some { data := 400, len := 0 })).2
      + (CipherFn.aes_256_ctr_encrypt.final proc_final_negative
          (some { data := 400, len := 0 })).2 = -1 := by
  refine ⟨rfl, rfl, rfl⟩

/-- The sum of the byte counts, where the code does compute it: when a cipher call that
passed its precondition asserts returns `true` and the finalize count is a non-negative
`int`, `bytes_written` is the sum of the update count and the finalize count; and a negative
update count ends the call in an assertion failure. -/
theorem cipher_bytes_written_sum (f : CipherFn) (p : Process) (key iv inp out : Option Binary)
    (bw : Nat) (st : Status) (hb : p.bound) (hpre : f.pre p key iv inp out = true) :
    ((f.call p key iv inp out (Mem.entry bw st)).1 = Except.ok true →
      0 ≤ (f.final p out).2 → (f.final p out).2 ≤ INT_MAX → (f.update p inp out).2 ≤ INT_MAX →
      ((f.call p key iv inp out (Mem.entry bw st)).2.bytes_written : Int)
        = (f.update p inp out).2 + (f.final p out).2) ∧
    (f.init p key iv ≠ 0 → (f.update p inp out).1 ≠ 0 → (f.update p inp out).2 < 0 →
      ∃ expr, (f.call p key iv inp out (Mem.entry bw st)).1
        = Except.error (Exn.assertion expr)) := by
  generalize hr : f.call p key iv inp out (Mem.entry bw st) = r
  rw [call_eq hb] at hr
  simp only [CipherFn.pre, Bool.and_eq_true, bne_iff_ne, ne_eq, decide_eq_true_eq] at hpre
  obtain ⟨⟨⟨⟨⟨⟨⟨⟨h1, h2⟩, h3⟩, h4⟩, h5⟩, h6⟩, h7⟩, h8⟩, h9⟩ := hpre
  have h5b : (p.ssl.EVP_CIPHER_CTX_new != 0) = true := by simpa using h5
  have h6b : (f.cipher p != 0) = true := by simpa using h6
  have h9b : decide ((deref inp).len ≤ INT_MAX) = true := by simpa using h9
  simp only [CipherFn.init, CipherFn.update, CipherFn.final]
  generalize f.cipher p = cipher at *
  generalize f.descriptor = d at *
  cases hf : f.encrypts <;> cases iv
  all_goals
    simp only [hf, Bool.false_or, Option.isSome_none, Bool.false_eq_true] at h4
  all_goals
    simp only [deref, Option.getD_some] at h8 h9b h7 ⊢
    simp only [_encrypt_with_cipher, _decrypt_with_cipher, bind_run, pure_run, bind_invoke hb,
      scope_close hb, bind_ASSERT, bind_pure, ite_run, bind_set_bytes_written,
      bind_get_bytes_written, bind_report_error hb, close_ite, Run.pure, close_ok, close_assertion, Mem.entry,
      deref, Option.getD_some, data_or_null,
      hf, h1, h2, h3, h5b, h6b, h7, h8, h9b, Option.isSome_some,
      Bool.false_eq_true, if_false, if_true,
      List.nil_append, List.append_assoc, List.cons_append] at hr
    revert hr
    repeat' (refine ite_imp (fun _ => ?_) (fun _ => ?_))
    all_goals
      intro hr
      subst hr
      dsimp only
      simp_all [data_or_null]
      try (unfold toUInt32 toUInt64 UINT32_MAX INT_MAX at *; omega)

/-- The sum property at a well-behaved library: 16 bytes in, 16 bytes written. -/
theorem cipher_bytes_written_sum_witness :
    ((CipherFn.aes_256_cbc_encrypt.call proc_ok (some { data := 100, len := 32 })
        (some { data := 200, len := 16 }) (some { data := 300, len := 16 })
        (some { data := 400, len := 16 }) (Mem.entry 0 status_ok)).2.bytes_written : Int)
      = 16 + 0 :=
  (cipher_bytes_written_sum CipherFn.aes_256_cbc_encrypt proc_ok
    (some { data := 100, len := 32 }) (some { data := 200, len := 16 })
    (some { data := 300, len := 16 }) (some { data := 400, len := 16 }) 0 status_ok
    proc_ok_bound (by decide)).1 rfl (by decide) (by decide) (by decide)

/-- Moving a `CleanupImpl` leaves one active object: the destructor of the moved-from object
does nothing and the destructor of the new object runs the callable. So `Cleanup` runs its
callable once whether or not the returned object is moved into the local. -/
theorem cleanup_move_keeps_one_active (fn : Run Unit) (m : Mem) :
    ((Cleanup fn).move_ctor).2.dtor m = (Except.ok (), m) ∧
    ((Cleanup fn).move_ctor).1.dtor = fn ∧
    (Cleanup fn).dtor = fn := by
  refine ⟨rfl, rfl, rfl⟩

/-- C5: in every call of a cipher entry point, of `sha_256` and of `sign_rsa_sha256`, each
native object the call creates (the cipher context, the digest context, the decoded key) is
released exactly once before the call is left, whichever way it is left: `true`, `false`, or
an assertion failure. -/
theorem native_objects_released_once (p : Process) (bw : Nat) (st : Status) (hb : p.bound) :
    (∀ (f : CipherFn) (key iv inp out : Option Binary),
      released_once (f.call p key iv inp out (Mem.entry bw st)).2.trace = true) ∧
    (∀ inp out : Binary, released_once (sha_256 p inp out (Mem.entry bw st)).2.trace = true) ∧
    (∀ (key inp out : Option Binary) (status : Bool),
      released_once (sign_rsa_sha256 p key inp out status (Mem.entry bw st)).2.trace = true) := by
  obtain ⟨P, hP⟩ : ∃ P : Except Exn Bool × Mem → Prop,
      P = fun r => released_once r.2.trace = true := ⟨_, rfl⟩
  refine ⟨fun f key iv inp out => ?_, fun inp out => ?_, fun key inp out status => ?_⟩
  · obtain ⟨hd1, hd2⟩ := descriptor_not_resource f
    suffices h : P (f.call p key iv inp out (Mem.entry bw st)) by rw [hP] at h; exact h
    rw [call_eq hb]
    generalize f.cipher p = cipher
    generalize f.descriptor = d at hd1 hd2 ⊢
    cases f.encrypts <;> cases iv
    all_goals
      simp only [_encrypt_with_cipher, _decrypt_with_cipher, bind_run, pure_run, bind_invoke hb,
        scope_close hb, bind_ASSERT, bind_pure, ite_run, bind_set_bytes_written,
        bind_get_bytes_written, bind_report_error hb, close_ite, Run.pure, close_ok, close_assertion, Mem.entry,
        Bool.false_eq_true, if_false, if_true,
        List.nil_append, List.append_assoc, List.cons_append]
      repeat' (refine ite_ind P (fun _ => ?_) (fun _ => ?_))
      all_goals
        subst hP
        simp only [released_once, track_skip _ _ _ _ _ hd1 hd2]
        by_cases hc : p.ssl.EVP_CIPHER_CTX_new = 0 <;>
          simp [track, hc, Sym.release_of, Sym.is_release]
  · suffices h : P (sha_256 p inp out (Mem.entry bw st)) by rw [hP] at h; exact h
    simp only [sha_256, bind_run, pure_run, bind_invoke hb, bind_S hb, bind_log,
      scope_close hb, bind_pure, ite_run, close_ite, Run.pure, close_ok, close_assertion, Mem.entry,
      List.nil_append, List.append_assoc, List.cons_append]
    repeat' (refine ite_ind P (fun _ => ?_) (fun _ => ?_))
    all_goals
      subst hP
      by_cases hc : p.ssl.EVP_MD_CTX_new = 0 <;>
        simp [released_once, track, hc, Sym.release_of, Sym.is_release]
  · suffices h : P (sign_rsa_sha256 p key inp out status (Mem.entry bw st)) by
      rw [hP] at h; exact h
    simp only [sign_rsa_sha256, bind_run, pure_run, bind_invoke hb, bind_S hb, bind_log,
      bind_ASSERT, scope_close hb, bind_pure, ite_run, close_ite, Run.pure, close_ok, close_assertion, Mem.entry,
      List.nil_append, List.append_assoc, List.cons_append]
    repeat' (refine ite_ind P (fun _ => ?_) (fun _ => ?_))
    all_goals
      subst hP
      by_cases hc : p.ssl.EVP_MD_CTX_new = 0 <;>
        by_cases hk : p.ssl.d2i_PrivateKey (deref key).data (toLong (deref key).len) = 0 <;>
          simp [released_once, track, hc, hk, Sym.release_of, Sym.is_release]

/-- C5 at a statically linked process. -/
theorem native_objects_released_once_witness :
    released_once (sign_rsa_sha256 proc_ok (some { data := 100, len := 1190 })
        (some { data := 300, len := 16 }) (some { data := 400, len := 256 }) true
        (Mem.entry 0 status_ok)).2.trace = true :=
  (native_objects_released_once proc_ok 0 status_ok proc_ok_bound).2.2 _ _ _ _

/-- C7 as stated fails: `aes_256_cbc_encrypt` with a null IV passes its assertions, calls
`EVP_EncryptInit_ex` (with a null IV pointer) and returns `true`. -/
theorem cipher_absent_iv_counterexample :
    (CipherFn.aes_256_cbc_encrypt.call proc_ok (some { data := 100, len := 32 }) none
        (some { data := 300, len := 16 }) (some { data := 400, len := 16 })
        (Mem.entry 0 status_ok)).1 = Except.ok true ∧
    ({ fn := Sym.EVP_EncryptInit_ex, obj := 7, ret := 1 } : Event) ∈
      (CipherFn.aes_256_cbc_encrypt.call proc_ok (some { data := 100, len := 32 }) none
        (some { data := 300, len := 16 }) (some { data := 400, len := 16 })
        (Mem.entry 0 status_ok)).2.trace := by
  refine ⟨rfl, by decide⟩

/-- C7, amended: the two decrypt entry points (`aes_256_cbc_decrypt`, `aes_256_ctr_decrypt`)
end in an assertion failure when the IV is null and make no Init / Update / Final call.
The three encrypt entry points (`aes_256_cbc_encrypt`, `aes_256_ecb_encrypt`,
`aes_256_ctr_encrypt`) all accept a null IV: when the other assertions hold, the init call
is made, with a null IV pointer. -/
theorem cipher_absent_iv (f : CipherFn) (p : Process) (key inp out : Option Binary)
    (bw : Nat) (st : Status) (hb : p.bound) :
    (f.encrypts = false →
      ∃ expr calls,
        f.call p key none inp out (Mem.entry bw st)
          = (Except.error (Exn.assertion expr),
              { bytes_written := bw, status := st, trace := calls }) ∧
        ∀ e ∈ calls, e.fn.is_transform = false) ∧
    (f.encrypts = true → f.pre p key none inp out = true →
      ({ fn := Sym.EVP_EncryptInit_ex, obj := p.ssl.EVP_CIPHER_CTX_new,
         ret := p.ssl.EVP_EncryptInit_ex p.ssl.EVP_CIPHER_CTX_new (f.cipher p)
                  (deref key).data 0 } : Event) ∈
        (f.call p key none inp out (Mem.entry bw st)).2.trace) := by
  have hd := descriptor_not_transform f
  constructor
  · intro hf
    obtain ⟨P, hP⟩ : ∃ P : Except Exn Bool × Mem → Prop, P = fun r =>
        ∃ expr calls, r = (Except.error (Exn.assertion expr),
            { bytes_written := bw, status := st, trace := calls }) ∧
          ∀ e ∈ calls, e.fn.is_transform = false := ⟨_, rfl⟩
    suffices h : P (f.call p key none inp out (Mem.entry bw st)) by rw [hP] at h; exact h
    rw [call_eq hb]
    generalize f.cipher p = cipher
    generalize f.descriptor = d at hd ⊢
    simp only [hf, _decrypt_with_cipher, bind_run, pure_run, bind_invoke hb,
      scope_close hb, bind_ASSERT, bind_pure, ite_run, close_ite, Run.pure, close_ok, close_assertion, Mem.entry,
      Option.isSome_none, Bool.false_eq_true, if_false, if_true,
      List.nil_append, List.append_assoc, List.cons_append]
    repeat' (refine ite_ind P (fun _ => ?_) (fun _ => ?_))
    all_goals
      subst hP
      refine ⟨_, _, rfl, List.forall_mem_cons.2 ⟨hd, ?_⟩⟩
      simp [Sym.is_transform]
  · intro hf hpre
    generalize hr : f.call p key none inp out (Mem.entry bw st) = r
    rw [call_eq hb] at hr
    simp only [CipherFn.pre, Bool.and_eq_true, bne_iff_ne, ne_eq, decide_eq_true_eq] at hpre
    obtain ⟨⟨⟨⟨⟨⟨⟨⟨h1, h2⟩, h3⟩, -⟩, h5⟩, h6⟩, -⟩, h8⟩, h9⟩ := hpre
    have h5b : (p.ssl.EVP_CIPHER_CTX_new != 0) = true := by simpa using h5
    have h6b : (f.cipher p != 0) = true := by simpa using h6
    have h9b : decide ((deref inp).len ≤ INT_MAX) = true := by simpa using h9
    generalize f.cipher p = cipher at *
    generalize f.descriptor = d at *
    simp only [_encrypt_with_cipher, bind_run, pure_run, bind_invoke hb,
      scope_close hb, bind_ASSERT, bind_pure, ite_run, bind_set_bytes_written,
      bind_get_bytes_written, bind_report_error hb, close_ite, Run.pure, close_ok, close_assertion, Mem.entry,
      data_or_null, hf, h1, h2, h3, h5b, h6b, h8, h9b,
      Bool.false_eq_true, if_false, if_true,
      List.nil_append, List.append_assoc, List.cons_append] at hr
    revert hr
    repeat' (refine ite_imp (fun _ => ?_) (fun _ => ?_))
    all_goals
      intro hr
      subst hr
      simp

/-- C7, amended, at `aes_256_ctr_decrypt` with a null IV: an assertion failure. -/
theorem cipher_absent_iv_witness :
    ∃ expr calls,
      CipherFn.aes_256_ctr_decrypt.call proc_ok (some { data := 100, len := 32 }) none
          (some { data := 300, len := 16 }) (some { data := 400, len := 16 })
          (Mem.entry 0 status_ok)
        = (Except.error (Exn.assertion expr),
            { bytes_written := 0, status := status_ok, trace := calls }) ∧
      ∀ e ∈ calls, e.fn.is_transform = false :=
  (cipher_absent_iv CipherFn.aes_256_ctr_decrypt proc_ok _ _ _ 0 status_ok proc_ok_bound).1 rfl

/-- C8 fails on the code: with a key that decodes and `EVP_DigestSignInit` answering -2, the
`bool ret` holds `true`, `ret != 1` is false, and `sign_rsa_sha256` goes on to the update and
finalize calls and returns `true`. -/
theorem sign_negative_init_code_accepted :
    sign_rsa_sha256 proc_sign_unsupported (some { data := 100, len := 1190 })
        (some { data := 300, len := 16 }) (some { data := 400, len := 256 }) true
        (Mem.entry 0 status_ok)
      = (Except.ok true,
          { bytes_written := 0, status := status_ok,
            trace := [
              { fn := Sym.EVP_MD_CTX_new, obj := 8, ret := 8 },
              { fn := Sym.d2i_PrivateKey, obj := 9, ret := 9 },
              { fn := Sym.EVP_sha256, obj := 4, ret := 4 },
              { fn := Sym.EVP_DigestSignInit, obj := 8, ret := -2 },
              { fn := Sym.EVP_DigestSignUpdate, obj := 8, ret := 1 },
              { fn := Sym.EVP_DigestSignFinal, obj := 8, ret := 1 },
              { fn := Sym.EVP_PKEY_free, obj := 9, ret := 0 },
              { fn := Sym.EVP_MD_CTX_free, obj := 8, ret := 0 }] }) := by
  rfl

/-- The steps of `sign_rsa_sha256` as the code takes them: with non-null key, input, output
and status and a key length within `LONG_MAX`, a key that fails to decode gives `false` with
no sign-init call; a key that decodes gives `true` exactly when each of the three steps
returned a non-zero code; and an init code of 0 gives `false` with no update or finalize
call. -/
theorem sign_rsa_sha256_steps (p : Process) (key inp out : Binary) (bw : Nat) (st : Status)
    (hb : p.bound) (hlen : key.len ≤ p.LONG_MAX) :
    (p.ssl.d2i_PrivateKey key.data (key.len : Int) = 0 →
      (sign_rsa_sha256 p (some key) (some inp) (some out) true (Mem.entry bw st)).1
        = Except.ok false ∧
      ∀ e ∈ (sign_rsa_sha256 p (some key) (some inp) (some out) true (Mem.entry bw st)).2.trace,
        e.fn ≠ Sym.EVP_DigestSignInit) ∧
    (p.ssl.d2i_PrivateKey key.data (key.len : Int) ≠ 0 →
      ((sign_rsa_sha256 p (some key) (some inp) (some out) true (Mem.entry bw st)).1
          = Except.ok true ↔
        p.ssl.EVP_DigestSignInit p.ssl.EVP_MD_CTX_new p.ssl.EVP_sha256
            (p.ssl.d2i_PrivateKey key.data (key.len : Int)) ≠ 0 ∧
        p.ssl.EVP_DigestSignUpdate p.ssl.EVP_MD_CTX_new inp.data inp.len ≠ 0 ∧
        p.ssl.EVP_DigestSignFinal p.ssl.EVP_MD_CTX_new out.data ≠ 0) ∧
      (p.ssl.EVP_DigestSignInit p.ssl.EVP_MD_CTX_new p.ssl.EVP_sha256
            (p.ssl.d2i_PrivateKey key.data (key.len : Int)) = 0 →
        (sign_rsa_sha256 p (some key) (some inp) (some out) true (Mem.entry bw st)).1
          = Except.ok false ∧
        ∀ e ∈ (sign_rsa_sha256 p (some key) (some inp) (some out) true
            (Mem.entry bw st)).2.trace,
          e.fn ≠ Sym.EVP_DigestSignUpdate ∧ e.fn ≠ Sym.EVP_DigestSignFinal)) := by
  have hl : decide (key.len ≤ p.LONG_MAX) = true := by simpa using hlen
  generalize hr : sign_rsa_sha256 p (some key) (some inp) (some out) true (Mem.entry bw st) = r
  simp only [sign_rsa_sha256, bind_run, pure_run, bind_invoke hb, bind_S hb, bind_log,
    bind_ASSERT, scope_close hb, bind_pure, ite_run, close_ite, Run.pure, close_ok, close_assertion, Mem.entry,
    deref, Option.getD_some, Option.isSome_some, toLong, toBool, ofBool, hl, if_true,
    List.nil_append, List.append_assoc, List.cons_append] at hr
  revert hr
  repeat' (refine ite_imp (fun _ => ?_) (fun _ => ?_))
  all_goals
    intro hr
    subst hr
    dsimp only
    simp_all

/-- The step property at a library whose sign-init answers 0: `false`. -/
theorem sign_rsa_sha256_steps_witness :
    (sign_rsa_sha256 { proc_ok with ssl := { ssl_ok with EVP_DigestSignInit := fun _ _ _ => 0 } }
        (some { data := 100, len := 1190 }) (some { data := 300, len := 16 })
        (some { data := 400, len := 256 }) true (Mem.entry 0 status_ok)).1 = Except.ok false :=
  (((sign_rsa_sha256_steps
      { proc_ok with ssl := { ssl_ok with EVP_DigestSignInit := fun _ _ _ => 0 } }
      { data := 100, len := 1190 } { data := 300, len := 16 } { data := 400, len := 256 }
      0 status_ok (fun _ => rfl) (by decide)).2 (by decide)).2 rfl).1

/-- C9: `random_fn` with an output buffer and `count <= INT_MAX` tells the three answers of
`RAND_bytes` apart: on 1 it returns `true` and leaves the status alone; on -1 it returns
`false` with status client-error, code 1, message `"secure random IV not supported: "`
followed by the library's error string; on 0 it returns `false` with the message
`"failed to generate random: "` followed by the error string. With `count > INT_MAX` it
ends in an assertion failure and `RAND_bytes` is never called. -/
theorem random_fn_outcomes (p : Process) (out : Option Binary) (count bw : Nat) (st : Status)
    (hb : p.bound) :
    (∀ b, out = some b → count ≤ INT_MAX →
      (p.ssl.RAND_bytes b.data (count : Int) = 1 →
        (random_fn p out count (Mem.entry bw st)).1 = Except.ok true ∧
        (random_fn p out count (Mem.entry bw st)).2.status = st) ∧
      (p.ssl.RAND_bytes b.data (count : Int) = -1 →
        (random_fn p out count (Mem.entry bw st)).1 = Except.ok false ∧
        (random_fn p out count (Mem.entry bw st)).2.status
          = client_error p "secure random IV not supported: ") ∧
      (p.ssl.RAND_bytes b.data (count : Int) = 0 →
        (random_fn p out count (Mem.entry bw st)).1 = Except.ok false ∧
        (random_fn p out count (Mem.entry bw st)).2.status
          = client_error p "failed to generate random: ")) ∧
    (INT_MAX < count →
      (∃ expr, (random_fn p out count (Mem.entry bw st)).1
          = Except.error (Exn.assertion expr)) ∧
      (random_fn p out count (Mem.entry bw st)).2.status = st ∧
      ∀ e ∈ (random_fn p out count (Mem.entry bw st)).2.trace, e.fn ≠ Sym.RAND_bytes) := by
  constructor
  · rintro b rfl hc
    have hd : decide (count ≤ INT_MAX) = true := by simpa using hc
    simp only [random_fn, bind_run, pure_run, bind_ASSERT, bind_invoke hb, bind_pure, ite_run,
      bind_report_error hb, Run.pure, Mem.entry, deref, Option.getD_some, Option.isSome_some,
      hd, if_true, toInt_of_le hc, client_error]
    refine ⟨fun h => ?_, fun h => ?_, fun h => ?_⟩ <;> simp [h]
  · intro hc
    have hd : decide (count ≤ INT_MAX) = false := by simpa using hc
    simp only [random_fn, bind_run, pure_run, bind_ASSERT, bind_invoke hb, bind_pure, ite_run,
      bind_report_error hb, Run.pure, Mem.entry, hd, Bool.false_eq_true, if_false]
    cases out <;> simp

/-- C9 at a generator without a secure random method (`RAND_bytes` answers -1) and at a
count of `INT_MAX + 1`. -/
theorem random_fn_outcomes_witness :
    ((random_fn { proc_ok with ssl := { ssl_ok with RAND_bytes := fun _ _ => -1 } }
        (some { data := 400, len := 32 }) 32 (Mem.entry 0 status_ok)).1 = Except.ok false ∧
      (random_fn { proc_ok with ssl := { ssl_ok with RAND_bytes := fun _ _ => -1 } }
        (some { data := 400, len := 32 }) 32 (Mem.entry 0 status_ok)).2.status
        = client_error proc_ok "secure random IV not supported: ") ∧
    ∃ expr, (random_fn proc_ok (some { data := 400, len := 32 }) 2147483648
        (Mem.entry 0 status_ok)).1 = Except.error (Exn.assertion expr) :=
  ⟨((random_fn_outcomes { proc_ok with ssl := { ssl_ok with RAND_bytes := fun _ _ => -1 } }
      (some { data := 400, len := 32 }) 32 0 status_ok (fun _ => rfl)).1
      _ rfl (by decide)).2.1 rfl,
   ((random_fn_outcomes proc_ok (some { data := 400, len := 32 }) 2147483648 0 status_ok
      proc_ok_bound).2 (by decide)).1⟩

/-- C10 as stated fails: the table of an accepted process has no entry for
`aes_256_ecb_encrypt`. -/
theorem hook_table_ecb_counterexample :
    ∃ hooks, createOpenSSLCryptoHooks proc_ok = Except.ok (some hooks) ∧
      some HookFn.aes_256_ecb_encrypt ∉ hooks.slots :=
  ⟨_, rfl, by decide⟩

/-- C10, amended: every table the factory returns carries the identity string
`"native_openssl"` and eleven slots, of which nine hold `aes_256_cbc_encrypt`,
`aes_256_cbc_decrypt`, `random_fn`, `hmac_sha_512`, `hmac_sha_256`, `sha_256`,
`aes_256_ctr_encrypt`, `aes_256_ctr_decrypt` and `sign_rsa_sha256`, and exactly two are
unset; `aes_256_ecb_encrypt` is in no slot. -/
theorem hook_table_entries (p : Process) (hooks : CryptoHooks)
    (h : createOpenSSLCryptoHooks p = Except.ok (some hooks)) :
    hooks.id = "native_openssl" ∧
    hooks.slots.length = 11 ∧
    (∀ fn ∈ [HookFn.aes_256_cbc_encrypt, HookFn.aes_256_cbc_decrypt, HookFn.random_fn,
        HookFn.hmac_sha_512, HookFn.hmac_sha_256, HookFn.sha_256, HookFn.aes_256_ctr_encrypt,
        HookFn.aes_256_ctr_decrypt, HookFn.sign_rsa_sha256], some fn ∈ hooks.slots) ∧
    hooks.slots.count none = 2 ∧
    some HookFn.aes_256_ecb_encrypt ∉ hooks.slots := by
  unfold createOpenSSLCryptoHooks at h
  cases hs : S_Unchecked p Sym.OpenSSL_version_num with
  | error e => simp [hs] at h
  | ok sym =>
    simp only [hs] at h
    split at h
    · simp at h
    · split at h
      · simp at h
      · simp only [Except.ok.injEq, Option.some.injEq] at h
        subst h
        decide

/-- C10, amended, at a process with OpenSSL 3.0.0. -/
theorem hook_table_entries_witness :
    ∃ hooks, createOpenSSLCryptoHooks proc_ok = Except.ok (some hooks) ∧
      hooks.id = "native_openssl" ∧ hooks.slots.count none = 2 :=
  ⟨_, rfl, (hook_table_entries proc_ok _ rfl).1, (hook_table_entries proc_ok _ rfl).2.2.2.1⟩

end OpenSSLCrypto
